import Mathlib

/-!
Shallow embedding of the GreenGrid microgrid simulator
(`Simulator/components/battery.py`, `grid.py`, `load.py`, `inverter.py`,
`solar_panel.py`, `utils.py` and the dispatch strategies of
`Simulator/simulation.py`).

Energies, state-of-charge percentages and prices are embedded as exact
rationals (`ℚ`); the Python code computes with floats, so exact rational
identities imply the float identities up to rounding.  The solar model uses
`Real.sin`, so the solar panel is embedded over `ℝ`.  Random draws
(`random.random()`, `random.randint`) are passed to the embedded functions as
explicit arguments.
-/

namespace GreenGrid

/-! ## Battery (`components/battery.py`) -/

/-- State of `Battery`: configuration fields plus mutable
`current_soc` and the cumulative statistics counters. -/
structure Battery where
  count : ℕ
  capacity : ℚ
  min_soc : ℚ
  max_soc : ℚ
  efficiency : ℚ
  current_soc : ℚ
  total_charged : ℚ
  total_discharged : ℚ
  charge_cycles : ℕ
  discharge_cycles : ℕ
deriving DecidableEq

/-- Embeds `Battery.get_current_energy`. -/
def Battery.get_current_energy (b : Battery) : ℚ :=
  b.current_soc / 100 * b.capacity

/-- Embeds `Battery.charge`: returns the value `actual_charged` returned by the
Python method together with the updated battery state.  The
`time_step_hours` parameter of the source is unused there and omitted. -/
def Battery.charge (b : Battery) (energy_kwh : ℚ) : ℚ × Battery :=
  let effective_energy := energy_kwh * b.efficiency
  let current_energy := b.get_current_energy
  let max_energy := b.max_soc / 100 * b.capacity
  let available_space := max_energy - current_energy
  let actual_charged := min effective_energy available_space
  if 0 < actual_charged then
    (actual_charged,
      { b with
          current_soc := (current_energy + actual_charged) / b.capacity * 100
          total_charged := b.total_charged + actual_charged
          charge_cycles := b.charge_cycles + 1 })
  else
    (actual_charged, b)

/-- Embeds `Battery.discharge`: returns the value `effective_discharge` returned by
the Python method together with the updated battery state. -/
def Battery.discharge (b : Battery) (energy_needed_kwh : ℚ) : ℚ × Battery :=
  let current_energy := b.get_current_energy
  let min_energy := b.min_soc / 100 * b.capacity
  let available_energy := current_energy - min_energy
  let actual_discharge := min energy_needed_kwh available_energy
  let effective_discharge := actual_discharge * b.efficiency
  if 0 < actual_discharge then
    (effective_discharge,
      { b with
          current_soc := (current_energy - actual_discharge) / b.capacity * 100
          total_discharged := b.total_discharged + effective_discharge
          discharge_cycles := b.discharge_cycles + 1 })
  else
    (effective_discharge, b)

/-- The local variable `actual_discharge` of `Battery.discharge`: the
pre-efficiency amount drawn from storage for a request `x`. -/
def Battery.dischargeDrawn (b : Battery) (x : ℚ) : ℚ :=
  min x (b.get_current_energy - b.min_soc / 100 * b.capacity)

/-- Embeds `Battery.is_full`. -/
def Battery.is_full (b : Battery) : Prop := b.max_soc ≤ b.current_soc

/-- Embeds `Battery.is_empty`. -/
def Battery.is_empty (b : Battery) : Prop := b.current_soc ≤ b.min_soc

/-- The battery SOC invariant stated by the spec:
`min_soc ≤ current_soc ≤ max_soc`. -/
def Battery.socInvariant (b : Battery) : Prop :=
  b.min_soc ≤ b.current_soc ∧ b.current_soc ≤ b.max_soc

instance (b : Battery) : Decidable b.socInvariant := by
  unfold Battery.socInvariant; infer_instance

/-- One call of the battery mutators, with an arbitrary energy argument. -/
inductive BatteryOp where
  | charge (x : ℚ)
  | discharge (x : ℚ)

/-- Apply one `BatteryOp` to a battery state, keeping the new state. -/
def Battery.applyOp (b : Battery) : BatteryOp → Battery
  | .charge x => (b.charge x).2
  | .discharge x => (b.discharge x).2

/-- Apply a finite sequence of charge/discharge calls. -/
def Battery.applyOps (b : Battery) (ops : List BatteryOp) : Battery :=
  ops.foldl Battery.applyOp b

/-! ## Grid (`components/grid.py`) -/

/-- State of `Grid`. -/
structure Grid where
  export_limit : ℚ
  import_cost : ℚ
  export_revenue : ℚ
  total_imported : ℚ
  total_exported : ℚ
  total_cost : ℚ
  total_revenue : ℚ
deriving DecidableEq

/-- Embeds `Grid.import_energy`: the grid is unbounded, every positive request is
fully served. -/
def Grid.import_energy (g : Grid) (energy_kwh : ℚ) : ℚ × Grid :=
  if energy_kwh ≤ 0 then (0, g)
  else
    (energy_kwh,
      { g with
          total_imported := g.total_imported + energy_kwh
          total_cost := g.total_cost + energy_kwh * g.import_cost })

/-- Embeds `Grid.export_energy`: capped by `export_limit`; the curtailed surplus is
only printed, never accounted. -/
def Grid.export_energy (g : Grid) (energy_kwh : ℚ) : ℚ × Grid :=
  if energy_kwh ≤ 0 then (0, g)
  else
    let actual_export := min energy_kwh g.export_limit
    (actual_export,
      { g with
          total_exported := g.total_exported + actual_export
          total_revenue := g.total_revenue + actual_export * g.export_revenue })

/-! ## Load (`components/load.py`) -/

/-- State of `Load` (the stochastic `get_demand` is not needed by the
claims; its inputs reach the dispatch as `load_kwh`). -/
structure Load where
  base_load : ℚ
  total_consumed : ℚ
  peak_demand : ℚ
  unmet_load_events : ℕ
  total_unmet_load : ℚ
deriving DecidableEq

/-- Embeds `Load.consume`. -/
def Load.consume (l : Load) (energy_kwh : ℚ) : Load :=
  { l with total_consumed := l.total_consumed + energy_kwh }

/-- Embeds `Load.record_unmet_load`. -/
def Load.record_unmet_load (l : Load) (unmet_kwh : ℚ) : Load :=
  if 0 < unmet_kwh then
    { l with
        unmet_load_events := l.unmet_load_events + 1
        total_unmet_load := l.total_unmet_load + unmet_kwh }
  else l

/-! ## Inverter (`components/inverter.py`)

Random draws are passed explicitly: `r1` is the `random.random()` draw of
`Inverter.update`, `r2` the `random.random()` draw of `__inverter_fails`,
and `dur` the `random.randint(min_fail_duration, max_fail_duration)` draw. -/

/-- State of `Inverter`. -/
structure Inverter where
  max_output : ℚ
  fail_rate : ℚ
  min_fail_duration : ℕ
  max_fail_duration : ℕ
  is_operational : Bool
  failure_time_remaining : ℚ
  total_failures : ℕ
  total_downtime_hours : ℚ
deriving DecidableEq

/-- Embeds `Inverter.__update_failure`: toggles the operational flag, overwrites the
remaining downtime and accumulates the statistics. -/
def Inverter.update_failure (v : Inverter) (duration_hours : ℚ) : Inverter :=
  let op := !v.is_operational
  { v with
      is_operational := op
      failure_time_remaining := duration_hours
      total_downtime_hours := v.total_downtime_hours + duration_hours
      total_failures := if op then v.total_failures else v.total_failures + 1 }

/-- Embeds `Inverter.__inverter_fails`: the second Bernoulli draw `r2 < fail_rate`
plus the uniformly drawn integer downtime `dur`. -/
def Inverter.inverter_fails (v : Inverter) (r2 : ℚ) (dur : ℕ) : Bool × ℕ :=
  let fails := decide (r2 < v.fail_rate)
  (fails, if fails then dur else 0)

/-- Embeds `Inverter.update`. -/
def Inverter.update (v : Inverter) (r1 r2 : ℚ) (dur : ℕ)
    (time_step_hours : ℚ) : Inverter :=
  if v.is_operational = false then
    let rem := v.failure_time_remaining - time_step_hours
    if rem ≤ 0 then Inverter.update_failure { v with failure_time_remaining := rem } 0
    else { v with failure_time_remaining := rem }
  else
    let step_failure_prob := v.fail_rate * (time_step_hours / 24)
    if r1 < step_failure_prob then
      let fd := v.inverter_fails r2 dur
      if fd.1 then Inverter.update_failure v fd.2 else v
    else v

/-! ## Solar panel (`components/solar_panel.py` and `utils.py`)

`math.sin` forces the solar model into `ℝ`. -/

/-- State of `SolarPanel`. -/
structure SolarPanel where
  peak_power : ℝ
  total_generated : ℝ
  total_clipped : ℝ

/-- Embeds `SolarPanel.__generate`. -/
noncomputable def SolarPanel.generate (p : SolarPanel) (hour_of_day : ℕ)
    (cloud_coverage : ℝ) : ℝ :=
  let sun_angle : ℝ := (hour_of_day : ℝ) * (Real.pi / 12)
  let base_generation := max (p.peak_power * Real.sin sun_angle) 0
  base_generation * (1 - cloud_coverage)

/-- Embeds `SolarPanel.generate_energy`: 0 when the inverter is down, otherwise the
inverter-clipped generation, with the clipping and generation counters
updated. -/
noncomputable def SolarPanel.generate_energy (p : SolarPanel) (hour_of_day : ℕ)
    (cloud_coverage : ℝ) (inverter_operational : Bool) (limit : ℝ) :
    ℝ × SolarPanel :=
  if !inverter_operational then (0, p)
  else
    let energy := p.generate hour_of_day cloud_coverage
    (min energy limit,
      { p with
          total_clipped := p.total_clipped + max (energy - limit) 0
          total_generated := p.total_generated + min energy limit })

/-- Embeds `utils.calculate_solar_generation`, with `config.SOLAR_PEAK_POWER`
passed explicitly (`5.0` in `config.py`). -/
noncomputable def calculate_solar_generation (peak_power : ℝ)
    (time_of_day : ℕ) (cloud_coverage : ℝ) : ℝ :=
  let sun_angle : ℝ := (time_of_day : ℝ) * (Real.pi / 12)
  let base_generation := peak_power * Real.sin sun_angle
  let base_generation := if base_generation < 0 then 0 else base_generation
  let generation_with_clouds := base_generation * (1 - cloud_coverage)
  max 0 generation_with_clouds

/-! ## Dispatch strategies (`simulation.py`)

The three `_*_priority_strategy` methods mutate the battery, the grid and
the load, and also do `self.solar.total_generated += solar_kwh`; that last
accumulator is kept as a plain rational field of the dispatch state.  Each
strategy additionally returns a `StepReport` recording the values of its
local flow variables (`solar_to_load`, `battery_to_load`, `grid_import`,
`charged`, `exported`, final `remaining_load` / `remaining_solar`), plus the
pre-efficiency amount drawn from the battery (`Battery.dischargeDrawn`, the
local `actual_discharge` of `Battery.discharge`). -/

/-- The component states touched by `GreenGridSimulation.manage_energy_flow`. -/
structure SimState where
  battery : Battery
  grid : Grid
  load : Load
  solar_total_generated : ℚ
deriving DecidableEq

/-- The per-step flow quantities of one strategy invocation. -/
structure StepReport where
  solar_to_load : ℚ
  battery_delivered : ℚ
  battery_drawn : ℚ
  grid_imported : ℚ
  battery_charged : ℚ
  grid_exported : ℚ
  remaining_load : ℚ
  remaining_solar : ℚ
deriving DecidableEq

/-- Embeds `GreenGridSimulation._load_priority_strategy`
(House → Battery → Grid). -/
def loadPriorityStrategy (s : SimState) (solar_kwh load_kwh : ℚ) :
    SimState × StepReport :=
  let solar_to_load := min solar_kwh load_kwh
  let remaining_solar1 := solar_kwh - solar_to_load
  let remaining_load1 := load_kwh - solar_to_load
  let drawn := if 0 < remaining_load1 then s.battery.dischargeDrawn remaining_load1 else 0
  let pd := if 0 < remaining_load1 then s.battery.discharge remaining_load1 else (0, s.battery)
  let remaining_load2 := remaining_load1 - pd.1
  let pg := if 0 < remaining_load2 then s.grid.import_energy remaining_load2 else (0, s.grid)
  let remaining_load3 := remaining_load2 - pg.1
  let load1 := if 0 < remaining_load3 then s.load.record_unmet_load remaining_load3 else s.load
  let pc := if 0 < remaining_solar1 then pd.2.charge remaining_solar1 else (0, pd.2)
  let remaining_solar2 := remaining_solar1 - pc.1
  let pe := if 0 < remaining_solar2 then pg.2.export_energy remaining_solar2 else (0, pg.2)
  let remaining_solar3 := remaining_solar2 - pe.1
  let load2 := load1.consume (load_kwh - remaining_load3)
  ({ battery := pc.2, grid := pe.2, load := load2,
     solar_total_generated := s.solar_total_generated + solar_kwh },
   { solar_to_load := solar_to_load, battery_delivered := pd.1, battery_drawn := drawn,
     grid_imported := pg.1, battery_charged := pc.1, grid_exported := pe.1,
     remaining_load := remaining_load3, remaining_solar := remaining_solar3 })

/-- Embeds `GreenGridSimulation._charge_priority_strategy`
(Battery → House → Grid).  The export step of the source does not subtract
`exported` from `remaining_solar`, and records unmet load after `consume`. -/
def chargePriorityStrategy (s : SimState) (solar_kwh load_kwh : ℚ) :
    SimState × StepReport :=
  let pc := s.battery.charge solar_kwh
  let remaining_solar1 := solar_kwh - pc.1
  let solar_to_load := min remaining_solar1 load_kwh
  let remaining_solar2 := remaining_solar1 - solar_to_load
  let remaining_load1 := load_kwh - solar_to_load
  let drawn := if 0 < remaining_load1 then pc.2.dischargeDrawn remaining_load1 else 0
  let pd := if 0 < remaining_load1 then pc.2.discharge remaining_load1 else (0, pc.2)
  let remaining_load2 := remaining_load1 - pd.1
  let pg := if 0 < remaining_load2 then s.grid.import_energy remaining_load2 else (0, s.grid)
  let remaining_load3 := remaining_load2 - pg.1
  let pe := if 0 < remaining_solar2 then pg.2.export_energy remaining_solar2 else (0, pg.2)
  let load1 := s.load.consume (load_kwh - remaining_load3)
  let load2 := if 0 < remaining_load3 then load1.record_unmet_load remaining_load3 else load1
  ({ battery := pd.2, grid := pe.2, load := load2,
     solar_total_generated := s.solar_total_generated + solar_kwh },
   { solar_to_load := solar_to_load, battery_delivered := pd.1, battery_drawn := drawn,
     grid_imported := pg.1, battery_charged := pc.1, grid_exported := pe.1,
     remaining_load := remaining_load3, remaining_solar := remaining_solar2 })

/-- Embeds `GreenGridSimulation._produce_priority_strategy`
(Grid → Battery → House).  The solar-to-house step of the source does not
subtract `solar_to_load` from `remaining_solar`. -/
def producePriorityStrategy (s : SimState) (solar_kwh load_kwh : ℚ) :
    SimState × StepReport :=
  let pe := s.grid.export_energy solar_kwh
  let remaining_solar1 := solar_kwh - pe.1
  let pc := s.battery.charge remaining_solar1
  let remaining_solar2 := remaining_solar1 - pc.1
  let solar_to_load := min remaining_solar2 load_kwh
  let remaining_load1 := load_kwh - solar_to_load
  let drawn := if 0 < remaining_load1 then pc.2.dischargeDrawn remaining_load1 else 0
  let pd := if 0 < remaining_load1 then pc.2.discharge remaining_load1 else (0, pc.2)
  let remaining_load2 := remaining_load1 - pd.1
  let pg := if 0 < remaining_load2 then pe.2.import_energy remaining_load2 else (0, pe.2)
  let remaining_load3 := remaining_load2 - pg.1
  let load1 := s.load.consume (load_kwh - remaining_load3)
  let load2 := if 0 < remaining_load3 then load1.record_unmet_load remaining_load3 else load1
  ({ battery := pd.2, grid := pg.2, load := load2,
     solar_total_generated := s.solar_total_generated + solar_kwh },
   { solar_to_load := solar_to_load, battery_delivered := pd.1, battery_drawn := drawn,
     grid_imported := pg.1, battery_charged := pc.1, grid_exported := pe.1,
     remaining_load := remaining_load3, remaining_solar := remaining_solar2 })

/-! ## Per-step balance statements -/

/-- The energy-balance equation of the spec, literally as claimed:
`solar + battery_discharged + grid_imported` vs
`load_served + battery_charged + grid_exported + battery_loss +
clipping_loss`, within tolerance `1e-6`.  `battery_discharged` is the gross
amount drawn from storage, `battery_loss` the discharge-efficiency loss
(`drawn − delivered`; the charging loss never leaves `remaining_solar` in
the source, so it is zero at dispatch level), and `clipping_loss` is zero at
dispatch level because inverter clipping happens before dispatch. -/
def claimedStepBalance (run : SimState → ℚ → ℚ → SimState × StepReport)
    (s : SimState) (solar_kwh load_kwh : ℚ) : Prop :=
  let r := (run s solar_kwh load_kwh).2
  |solar_kwh + r.battery_drawn + r.grid_imported -
      ((load_kwh - r.remaining_load) + r.battery_charged + r.grid_exported +
        (r.battery_drawn - r.battery_delivered))| ≤ 1 / 1000000

/-- The corrected per-step balance: the spec's equation balances exactly once
the unrouted solar surplus
`solar − solar_to_load − battery_charged − grid_exported`
(curtailment, silently discarded by the source) is added to the sinks. -/
def balancedWithCurtailment (run : SimState → ℚ → ℚ → SimState × StepReport)
    (s : SimState) (solar_kwh load_kwh : ℚ) : Prop :=
  let r := (run s solar_kwh load_kwh).2
  solar_kwh + r.battery_drawn + r.grid_imported =
    (load_kwh - r.remaining_load) + r.battery_charged + r.grid_exported +
      (r.battery_drawn - r.battery_delivered) +
      (solar_kwh - r.solar_to_load - r.battery_charged - r.grid_exported)

/-! ## Concrete fixtures (from `config.py`) -/

/-- The battery built by `Battery(count=1)` with the values of `config.py`:
capacity 13.5 kWh, SOC bounds 5–100 %, efficiency 0.9, initial SOC 50 %. -/
def configBattery : Battery :=
  { count := 1, capacity := 27/2, min_soc := 5, max_soc := 100, efficiency := 9/10,
    current_soc := 50, total_charged := 0, total_discharged := 0,
    charge_cycles := 0, discharge_cycles := 0 }

/-- The grid built by `Grid()` with the values of `config.py`:
export limit 20 kW, import cost 0.75, export revenue 0.90. -/
def configGrid : Grid :=
  { export_limit := 20, import_cost := 3/4, export_revenue := 9/10,
    total_imported := 0, total_exported := 0, total_cost := 0, total_revenue := 0 }

/-- The load built by `Load()` with the values of `config.py`. -/
def configLoad : Load :=
  { base_load := 1/2, total_consumed := 0, peak_demand := 0,
    unmet_load_events := 0, total_unmet_load := 0 }

/-- Freshly initialised dispatch state. -/
def initState : SimState :=
  { battery := configBattery, grid := configGrid, load := configLoad,
    solar_total_generated := 0 }


/-- A full battery: `current_soc` exactly at `max_soc`. -/
def fullBattery : Battery := { configBattery with current_soc := 100 }

/-- An empty battery: `current_soc` exactly at `min_soc`. -/
def emptyBattery : Battery := { configBattery with current_soc := 5 }

/-- A battery at 99 % SOC (the spec's own headroom example). -/
def nearFullBattery : Battery := { configBattery with current_soc := 99 }

/-- A battery with `current_soc` strictly above `max_soc` (unreachable
through the operations, but quantified over by the claims). -/
def overFullBattery : Battery := { configBattery with current_soc := 110 }

/-- The round-trip example battery of the spec: capacity 10 kWh,
efficiency 0.9, SOC 50 %. -/
def roundTripBattery : Battery := { configBattery with capacity := 10 }

/-- Dispatch state whose battery sits exactly at `max_soc` (full). -/
def fullBatteryState : SimState := { initState with battery := fullBattery }

/-- The inverter built by `Inverter()` except with `fail_rate = 1/2` (the
config rate `0.005` would do as well; `1/2` keeps the draws readable). -/
def opInverter : Inverter :=
  { max_output := 4, fail_rate := 1/2, min_fail_duration := 4, max_fail_duration := 72,
    is_operational := true, failure_time_remaining := 0, total_failures := 0,
    total_downtime_hours := 0 }

/-- The no-op contract for non-positive energy arguments, as the code
actually realises it: grid operations return `0` and change nothing; the
battery operations change nothing but return the clamped (possibly
negative) amount, which is `0` for a zero argument on a battery inside its
SOC band. -/
def nonpositiveNoopProp (b : Battery) (g : Grid) (x : ℚ) : Prop :=
  (b.charge x).2 = b ∧ (b.charge x).1 ≤ 0 ∧
  (b.discharge x).2 = b ∧ (b.discharge x).1 ≤ 0 ∧
  g.import_energy x = (0, g) ∧ g.export_energy x = (0, g) ∧
  (x = 0 → b.current_soc ≤ b.max_soc → 0 ≤ b.capacity → (b.charge x).1 = 0) ∧
  (x = 0 → b.min_soc ≤ b.current_soc → 0 ≤ b.capacity → (b.discharge x).1 = 0)

/-- The full/empty no-op contract as the code realises it: on a battery at
or beyond a SOC bound, charge/discharge leave the whole state (SOC and all
counters) unchanged and return a non-positive amount, which is `0` exactly
when the SOC sits exactly on the bound. -/
def fullEmptyNoopProp (b : Battery) (x : ℚ) : Prop :=
  (b.max_soc ≤ b.current_soc → (b.charge x).2 = b ∧ (b.charge x).1 ≤ 0) ∧
  (b.current_soc = b.max_soc → (b.charge x).1 = 0) ∧
  (b.current_soc ≤ b.min_soc → (b.discharge x).2 = b ∧ (b.discharge x).1 ≤ 0) ∧
  (b.current_soc = b.min_soc → (b.discharge x).1 = 0)

/-- Conclusion of the (corrected) inverter failure transition: what
`Inverter.update` does when the first draw passes the per-step gate and the
second draw passes the `fail_rate` gate. -/
def inverterFailsProp (v : Inverter) (r1 r2 : ℚ) (dur : ℕ) (t : ℚ) : Prop :=
  (v.update r1 r2 dur t).is_operational = false ∧
  (v.update r1 r2 dur t).failure_time_remaining = (dur : ℚ) ∧
  (v.update r1 r2 dur t).total_failures = v.total_failures + 1 ∧
  (v.update r1 r2 dur t).total_downtime_hours = v.total_downtime_hours + (dur : ℚ)

/-! ## Helper lemmas -/

/-- Configuration fields survive `Battery.charge`. -/
lemma Battery.charge_config (b : Battery) (x : ℚ) :
    ((b.charge x).2).capacity = b.capacity ∧ ((b.charge x).2).min_soc = b.min_soc ∧
    ((b.charge x).2).max_soc = b.max_soc ∧ ((b.charge x).2).efficiency = b.efficiency := by
  simp only [Battery.charge]
  split <;> simp

/-- Configuration fields survive `Battery.discharge`. -/
lemma Battery.discharge_config (b : Battery) (x : ℚ) :
    ((b.discharge x).2).capacity = b.capacity ∧ ((b.discharge x).2).min_soc = b.min_soc ∧
    ((b.discharge x).2).max_soc = b.max_soc ∧ ((b.discharge x).2).efficiency = b.efficiency := by
  simp only [Battery.discharge]
  split <;> simp

end GreenGrid

namespace GreenGrid

/-- Lemma: `Battery.charge` keeps `current_soc ≤ max_soc` and never lowers the SOC
below its old value, hence preserves the SOC band. -/
lemma Battery.charge_socInvariant (b : Battery) (x : ℚ)
    (hcap : 0 < b.capacity) (h : b.socInvariant) :
    ((b.charge x).2).socInvariant := by
  obtain ⟨hmin, hmax⟩ := h
  simp only [Battery.charge, Battery.get_current_energy]
  split
  case isTrue hpos =>
    have ha : min (x * b.efficiency)
        (b.max_soc / 100 * b.capacity - b.current_soc / 100 * b.capacity) ≤
        b.max_soc / 100 * b.capacity - b.current_soc / 100 * b.capacity :=
      min_le_right _ _
    constructor
    · -- min_soc stays below the strictly increased SOC
      dsimp only
      rw [div_mul_eq_mul_div, le_div_iff₀ hcap]
      nlinarith [hpos, hmin, hcap]
    · dsimp only
      rw [div_mul_eq_mul_div, div_le_iff₀ hcap]
      nlinarith [ha, hcap]
  case isFalse => exact ⟨hmin, hmax⟩

/-- Lemma: `Battery.discharge` keeps `min_soc ≤ current_soc` and never raises the
SOC above its old value, hence preserves the SOC band. -/
lemma Battery.discharge_socInvariant (b : Battery) (x : ℚ)
    (hcap : 0 < b.capacity) (h : b.socInvariant) :
    ((b.discharge x).2).socInvariant := by
  obtain ⟨hmin, hmax⟩ := h
  simp only [Battery.discharge, Battery.get_current_energy]
  split
  case isTrue hpos =>
    have ha : min x (b.current_soc / 100 * b.capacity - b.min_soc / 100 * b.capacity) ≤
        b.current_soc / 100 * b.capacity - b.min_soc / 100 * b.capacity :=
      min_le_right _ _
    constructor
    · dsimp only
      rw [div_mul_eq_mul_div, le_div_iff₀ hcap]
      nlinarith [ha, hcap]
    · dsimp only
      rw [div_mul_eq_mul_div, div_le_iff₀ hcap]
      nlinarith [hpos, hmax, hcap]
  case isFalse => exact ⟨hmin, hmax⟩

/-- One `BatteryOp` preserves the SOC invariant and the configuration. -/
lemma Battery.applyOp_socInvariant (b : Battery) (op : BatteryOp)
    (hcap : 0 < b.capacity) (h : b.socInvariant) :
    (b.applyOp op).socInvariant ∧
    (b.applyOp op).capacity = b.capacity ∧ (b.applyOp op).min_soc = b.min_soc ∧
    (b.applyOp op).max_soc = b.max_soc ∧ (b.applyOp op).efficiency = b.efficiency := by
  cases op with
  | charge x =>
    exact ⟨Battery.charge_socInvariant b x hcap h, Battery.charge_config b x⟩
  | discharge x =>
    exact ⟨Battery.discharge_socInvariant b x hcap h, Battery.discharge_config b x⟩

end GreenGrid

namespace GreenGrid

/-- Value returned by `Battery.discharge` for a non-negative request never
exceeds the request, when `0 ≤ efficiency ≤ 1`. -/
lemma Battery.discharge_fst_le (b : Battery) (x : ℚ)
    (he0 : 0 ≤ b.efficiency) (he1 : b.efficiency ≤ 1) (hx : 0 ≤ x) :
    (b.discharge x).1 ≤ x := by
  have key : min x (b.get_current_energy - b.min_soc / 100 * b.capacity) *
      b.efficiency ≤ x := by
    rcases le_total x (b.get_current_energy - b.min_soc / 100 * b.capacity) with h | h
    · rw [min_eq_left h]; nlinarith
    · rw [min_eq_right h]
      rcases le_or_lt 0 (b.get_current_energy - b.min_soc / 100 * b.capacity) with h0 | h0
      · nlinarith
      · nlinarith
  simp only [Battery.discharge]
  split <;> exact key

end GreenGrid

namespace GreenGrid

/-- The battery-then-grid tail shared by all three strategies drives the
remaining load to exactly `0`: the battery serves at most the request, and
the unbounded grid import serves all of the rest. -/
lemma dischargeImportTail (b : Battery) (g : Grid) (rl : ℚ)
    (hrl : 0 ≤ rl) (he0 : 0 ≤ b.efficiency) (he1 : b.efficiency ≤ 1) :
    rl - (if 0 < rl then b.discharge rl else (0, b)).1 -
      (if 0 < rl - (if 0 < rl then b.discharge rl else (0, b)).1 then
          g.import_energy (rl - (if 0 < rl then b.discharge rl else (0, b)).1)
        else (0, g)).1 = 0 := by
  by_cases h1 : 0 < rl
  · rw [if_pos h1]
    have hd := Battery.discharge_fst_le b rl he0 he1 hrl
    by_cases h2 : 0 < rl - (b.discharge rl).1
    · rw [if_pos h2, Grid.import_energy, if_neg (not_le.2 h2)]
      ring
    · rw [if_neg h2]
      have h0 : rl - (b.discharge rl).1 = 0 := le_antisymm (not_lt.1 h2) (by linarith)
      simp [h0]
  · have h0 : rl = 0 := le_antisymm (not_lt.1 h1) hrl
    rw [if_neg h1]
    simp [h0]

/-- Lemma: `_load_priority_strategy` leaves no unmet load and never touches the
unmet-load event counter. -/
lemma loadPriority_no_unmet (s : SimState) (S L : ℚ)
    (he0 : 0 ≤ s.battery.efficiency) (he1 : s.battery.efficiency ≤ 1) :
    ((loadPriorityStrategy s S L).2).remaining_load = 0 ∧
    ((loadPriorityStrategy s S L).1).load.unmet_load_events =
      s.load.unmet_load_events := by
  have htail := dischargeImportTail s.battery s.grid (L - min S L)
      (by have := min_le_right S L; linarith) he0 he1
  constructor
  · simpa only [loadPriorityStrategy] using htail
  · simp only [loadPriorityStrategy]
    rw [htail]
    simp [Load.consume]

end GreenGrid

namespace GreenGrid

/-- Lemma: `_charge_priority_strategy` leaves no unmet load and never touches the
unmet-load event counter. -/
lemma chargePriority_no_unmet (s : SimState) (S L : ℚ)
    (he0 : 0 ≤ s.battery.efficiency) (he1 : s.battery.efficiency ≤ 1) :
    ((chargePriorityStrategy s S L).2).remaining_load = 0 ∧
    ((chargePriorityStrategy s S L).1).load.unmet_load_events =
      s.load.unmet_load_events := by
  have heff := (Battery.charge_config s.battery S).2.2.2
  have htail := dischargeImportTail (s.battery.charge S).2 s.grid
      (L - min (S - (s.battery.charge S).1) L)
      (by have := min_le_right (S - (s.battery.charge S).1) L; linarith)
      (by rw [heff]; exact he0) (by rw [heff]; exact he1)
  constructor
  · simpa only [chargePriorityStrategy] using htail
  · simp only [chargePriorityStrategy]
    rw [htail]
    simp [Load.consume]

/-- Lemma: `_produce_priority_strategy` leaves no unmet load and never touches the
unmet-load event counter. -/
lemma producePriority_no_unmet (s : SimState) (S L : ℚ)
    (he0 : 0 ≤ s.battery.efficiency) (he1 : s.battery.efficiency ≤ 1) :
    ((producePriorityStrategy s S L).2).remaining_load = 0 ∧
    ((producePriorityStrategy s S L).1).load.unmet_load_events =
      s.load.unmet_load_events := by
  have heff := (Battery.charge_config s.battery (S - (s.grid.export_energy S).1)).2.2.2
  have htail := dischargeImportTail
      (s.battery.charge (S - (s.grid.export_energy S).1)).2
      (s.grid.export_energy S).2
      (L - min (S - (s.grid.export_energy S).1 -
          (s.battery.charge (S - (s.grid.export_energy S).1)).1) L)
      (by
        have := min_le_right (S - (s.grid.export_energy S).1 -
          (s.battery.charge (S - (s.grid.export_energy S).1)).1) L
        linarith)
      (by rw [heff]; exact he0) (by rw [heff]; exact he1)
  constructor
  · simpa only [producePriorityStrategy] using htail
  · simp only [producePriorityStrategy]
    rw [htail]
    simp [Load.consume]

end GreenGrid

namespace GreenGrid

/-! ## Claim theorems -/

/-- C2: for every battery with positive capacity whose `current_soc` starts
inside `[min_soc, max_soc]`, after any finite sequence of `charge` /
`discharge` calls with arbitrary energy arguments, `current_soc` is still
inside `[min_soc, max_soc]`, and `capacity`, `min_soc`, `max_soc` and
`efficiency` are unchanged. -/
theorem battery_soc_invariant_preserved (b : Battery) (ops : List BatteryOp)
    (hcap : 0 < b.capacity) (hinv : b.socInvariant) :
    (b.applyOps ops).socInvariant ∧
    (b.applyOps ops).capacity = b.capacity ∧
    (b.applyOps ops).min_soc = b.min_soc ∧
    (b.applyOps ops).max_soc = b.max_soc ∧
    (b.applyOps ops).efficiency = b.efficiency := by
  induction ops generalizing b with
  | nil => exact ⟨hinv, rfl, rfl, rfl, rfl⟩
  | cons op rest ih =>
    obtain ⟨h1, hc, hm, hM, he⟩ := Battery.applyOp_socInvariant b op hcap hinv
    have hops : (b.applyOps (op :: rest)) = ((b.applyOp op).applyOps rest) := rfl
    obtain ⟨i1, ic, im, iM, ie⟩ := ih (b.applyOp op) (hc ▸ hcap) h1
    exact ⟨hops ▸ i1, hops ▸ (ic.trans hc), hops ▸ (im.trans hm),
      hops ▸ (iM.trans hM), hops ▸ (ie.trans he)⟩

/-- C2 witness: the config battery (capacity 13.5, SOC 50 % in [5,100])
after a concrete charge/discharge sequence. -/
theorem battery_soc_invariant_preserved_witness :
    (configBattery.applyOps
        [.charge 2, .discharge 1, .charge (-3), .discharge 100]).socInvariant ∧
    (configBattery.applyOps
        [.charge 2, .discharge 1, .charge (-3), .discharge 100]).capacity =
      configBattery.capacity ∧
    (configBattery.applyOps
        [.charge 2, .discharge 1, .charge (-3), .discharge 100]).min_soc =
      configBattery.min_soc ∧
    (configBattery.applyOps
        [.charge 2, .discharge 1, .charge (-3), .discharge 100]).max_soc =
      configBattery.max_soc ∧
    (configBattery.applyOps
        [.charge 2, .discharge 1, .charge (-3), .discharge 100]).efficiency =
      configBattery.efficiency :=
  battery_soc_invariant_preserved configBattery
    [.charge 2, .discharge 1, .charge (-3), .discharge 100]
    (by norm_num [configBattery])
    (by constructor <;> norm_num [configBattery])

end GreenGrid

namespace GreenGrid

/-- C1 counterexample: with a full battery, 30 kWh of solar and no load
under `LOAD_PRIORITY` (export limit 20 kWh), the spec's balance equation is
off by the 10 kWh of surplus the code silently discards, far beyond the
1e-6 tolerance — even though both inputs are non-negative. -/
theorem dispatch_claimed_balance_fails : (0:ℚ) ≤ 30 ∧ (0:ℚ) ≤ 0 ∧
    ¬ claimedStepBalance loadPriorityStrategy fullBatteryState 30 0 := by
  refine ⟨by norm_num, by norm_num, ?_⟩
  norm_num [claimedStepBalance, loadPriorityStrategy, fullBatteryState, initState,
    fullBattery, configBattery, configGrid, configLoad, Battery.charge,
    Battery.discharge, Battery.dischargeDrawn, Battery.get_current_energy,
    Grid.import_energy, Grid.export_energy, Load.consume, Load.record_unmet_load,
    min_def]

/-- C1 (amended): for every dispatch step of each of the three strategies
with non-negative `solar_kwh` and `load_kwh`, the energy balance holds
exactly once the silently-curtailed solar surplus
`solar − solar_to_load − battery_charged − grid_exported` is added to the
sinks; at dispatch level `clipping_loss = 0` (clipping happened before
dispatch) and `battery_loss` is the discharge-efficiency loss
`drawn − delivered` (the charge loss never leaves `remaining_solar`). -/
theorem dispatch_balance_with_curtailment (s : SimState) (S L : ℚ)
    (hS : 0 ≤ S) (hL : 0 ≤ L) :
    balancedWithCurtailment loadPriorityStrategy s S L ∧
    balancedWithCurtailment chargePriorityStrategy s S L ∧
    balancedWithCurtailment producePriorityStrategy s S L := by
  refine ⟨?_, ?_, ?_⟩
  · simp only [balancedWithCurtailment, loadPriorityStrategy]
    ring
  · simp only [balancedWithCurtailment, chargePriorityStrategy]
    ring
  · simp only [balancedWithCurtailment, producePriorityStrategy]
    ring

/-- C1 witness: the amended balance at the fresh config state with 5 kWh of
solar and 2 kWh of load. -/
theorem dispatch_balance_with_curtailment_witness :
    balancedWithCurtailment loadPriorityStrategy initState 5 2 ∧
    balancedWithCurtailment chargePriorityStrategy initState 5 2 ∧
    balancedWithCurtailment producePriorityStrategy initState 5 2 :=
  dispatch_balance_with_curtailment initState 5 2 (by norm_num) (by norm_num)

/-- C3: with non-negative solar and load and battery efficiency in `[0,1]`,
every strategy ends its step with `remaining_load = 0` and an unchanged
`unmet_load_events` counter, and `Grid.import_energy` returns its argument
on every positive request. -/
theorem dispatch_no_unmet_load (s : SimState) (S L : ℚ)
    (hS : 0 ≤ S) (hL : 0 ≤ L)
    (he0 : 0 ≤ s.battery.efficiency) (he1 : s.battery.efficiency ≤ 1) :
    (∀ (g : Grid) (x : ℚ), 0 < x → (g.import_energy x).1 = x) ∧
    ((loadPriorityStrategy s S L).2.remaining_load = 0 ∧
      (loadPriorityStrategy s S L).1.load.unmet_load_events =
        s.load.unmet_load_events) ∧
    ((chargePriorityStrategy s S L).2.remaining_load = 0 ∧
      (chargePriorityStrategy s S L).1.load.unmet_load_events =
        s.load.unmet_load_events) ∧
    ((producePriorityStrategy s S L).2.remaining_load = 0 ∧
      (producePriorityStrategy s S L).1.load.unmet_load_events =
        s.load.unmet_load_events) := by
  refine ⟨?_, loadPriority_no_unmet s S L he0 he1,
    chargePriority_no_unmet s S L he0 he1, producePriority_no_unmet s S L he0 he1⟩
  intro g x hx
  rw [Grid.import_energy, if_neg (not_le.2 hx)]

/-- C3 witness: a fresh config state, 3 kWh of solar against 8 kWh of load
(battery plus grid must cover 5 kWh). -/
theorem dispatch_no_unmet_load_witness :
    (∀ (g : Grid) (x : ℚ), 0 < x → (g.import_energy x).1 = x) ∧
    ((loadPriorityStrategy initState 3 8).2.remaining_load = 0 ∧
      (loadPriorityStrategy initState 3 8).1.load.unmet_load_events =
        initState.load.unmet_load_events) ∧
    ((chargePriorityStrategy initState 3 8).2.remaining_load = 0 ∧
      (chargePriorityStrategy initState 3 8).1.load.unmet_load_events =
        initState.load.unmet_load_events) ∧
    ((producePriorityStrategy initState 3 8).2.remaining_load = 0 ∧
      (producePriorityStrategy initState 3 8).1.load.unmet_load_events =
        initState.load.unmet_load_events) :=
  dispatch_no_unmet_load initState 3 8 (by norm_num) (by norm_num)
    (by norm_num [initState, configBattery]) (by norm_num [initState, configBattery])

end GreenGrid

namespace GreenGrid

/-- C9: when the inverter is not operational, `generate_energy` returns `0`
and leaves the whole panel state — in particular `total_generated` and
`total_clipped` — untouched, for every hour, cloud coverage and limit. -/
theorem solar_inoperative_inverter_frame (p : SolarPanel) (hour : ℕ)
    (cloud_coverage limit : ℝ) :
    p.generate_energy hour cloud_coverage false limit = (0, p) := rfl

/-- C4 evaluation at the failing input: the sinusoidal model is `0` at
`hour = 0` as claimed, but at `hour = 12` with `cloud_coverage = 0` it is
also `0` (since `sin π = 0`), not the claimed `peak_power = 5`: the model
peaks at hour 6, contradicting the docstring of
`utils.calculate_solar_generation` ("more energy at noon"). -/
theorem solar_noon_is_zero_not_peak :
    (∀ cc : ℝ, SolarPanel.generate ⟨5, 0, 0⟩ 0 cc = 0) ∧
    SolarPanel.generate ⟨5, 0, 0⟩ 12 0 = 0 ∧
    calculate_solar_generation 5 12 0 = 0 ∧
    SolarPanel.generate ⟨5, 0, 0⟩ 6 0 = 5 ∧
    (0 : ℝ) ≠ 5 := by
  have hs12 : Real.sin ((12 : ℝ) * (Real.pi / 12)) = 0 := by
    have h : (12 : ℝ) * (Real.pi / 12) = Real.pi := by ring
    rw [h, Real.sin_pi]
  have hs6 : Real.sin ((6 : ℝ) * (Real.pi / 12)) = 1 := by
    have h : (6 : ℝ) * (Real.pi / 12) = Real.pi / 2 := by ring
    rw [h, Real.sin_pi_div_two]
  refine ⟨?_, ?_, ?_, ?_, by norm_num⟩
  · intro cc
    simp [SolarPanel.generate]
  · simp [SolarPanel.generate, hs12]
  · simp [calculate_solar_generation, hs12]
  · simp [SolarPanel.generate, hs6]

end GreenGrid

namespace GreenGrid

/-- C5 counterexample: an operational inverter whose first draw
`r1 = 0` falls below `fail_rate × (Δt/24) = 1/2` — the claim then forces a
transition to Failed — yet because the second draw `r2 = 3/4` fails the
`r2 < fail_rate` test inside `__inverter_fails`, the inverter stays
Operational with no failure recorded. -/
theorem inverter_update_single_draw_insufficient :
    opInverter.is_operational = true ∧
    (0 : ℚ) < opInverter.fail_rate * (24 / 24) ∧
    opInverter.min_fail_duration ≤ 10 ∧ (10 : ℕ) ≤ opInverter.max_fail_duration ∧
    (opInverter.update 0 (3/4) 10 24).is_operational = true ∧
    (opInverter.update 0 (3/4) 10 24).total_failures = 0 ∧
    (opInverter.update 0 (3/4) 10 24).total_downtime_hours = 0 := by
  refine ⟨rfl, by norm_num [opInverter], by norm_num [opInverter],
    by norm_num [opInverter], ?_, ?_, ?_⟩ <;>
    norm_num [opInverter, Inverter.update, Inverter.inverter_fails,
      Inverter.update_failure]

/-- C5 (amended): an Operational inverter transitions to Failed — with the
downtime set to the drawn integer duration, `total_failures` incremented
and `total_downtime_hours` incremented by the duration — exactly when BOTH
random draws pass: the per-step draw `r1 < fail_rate × (Δt/24)` AND the
second draw `r2 < fail_rate` made inside `__inverter_fails`. -/
theorem inverter_update_failure_transition (v : Inverter) (r1 r2 : ℚ)
    (dur : ℕ) (t : ℚ)
    (hop : v.is_operational = true)
    (h1 : r1 < v.fail_rate * (t / 24))
    (h2 : r2 < v.fail_rate)
    (hdmin : v.min_fail_duration ≤ dur) (hdmax : dur ≤ v.max_fail_duration) :
    inverterFailsProp v r1 r2 dur t := by
  have hfd : v.inverter_fails r2 dur = (true, dur) := by
    simp [Inverter.inverter_fails, h2]
  refine ⟨?_, ?_, ?_, ?_⟩ <;>
    simp [inverterFailsProp, Inverter.update, hop, if_pos h1, hfd,
      Inverter.update_failure]

/-- C5 witness: the `opInverter` with draws `r1 = 0 < 1/2`,
`r2 = 1/4 < 1/2` and duration `10 ∈ [4, 72]` over a 24-hour step. -/
theorem inverter_update_failure_transition_witness :
    inverterFailsProp opInverter 0 (1/4) 10 24 :=
  inverter_update_failure_transition opInverter 0 (1/4) 10 24 rfl
    (by norm_num [opInverter]) (by norm_num [opInverter])
    (by norm_num [opInverter]) (by norm_num [opInverter])

end GreenGrid

namespace GreenGrid

/-- C6 counterexample: the spec's own example — 99 % SOC, `max_soc = 100`,
capacity 13.5 kWh, efficiency 0.9, `charge(10)`.  The headroom is
0.135 kWh and `10 × 0.9 = 9` exceeds it, but the call returns the raw
headroom 0.135, not `headroom × efficiency = 0.1215`. -/
theorem battery_charge_headroom_return_counterexample :
    nearFullBattery.max_soc / 100 * nearFullBattery.capacity -
        nearFullBattery.current_soc / 100 * nearFullBattery.capacity <
      10 * nearFullBattery.efficiency ∧
    (nearFullBattery.charge 10).1 = 27/200 ∧
    ((nearFullBattery.charge 10).2).current_soc = nearFullBattery.max_soc ∧
    ¬ ((27:ℚ)/200 = 27/200 * nearFullBattery.efficiency) := by
  refine ⟨by norm_num [nearFullBattery, configBattery], ?_, ?_, ?_⟩
  · norm_num [nearFullBattery, configBattery, Battery.charge,
      Battery.get_current_energy, min_def]
  · norm_num [nearFullBattery, configBattery, Battery.charge,
      Battery.get_current_energy, min_def]
  · norm_num [nearFullBattery, configBattery]

/-- C6 (amended): whenever the post-efficiency amount `x × efficiency`
exceeds the headroom `max_soc/100 × capacity − current_energy` of a battery
with positive capacity and SOC at most `max_soc`, `charge(x)` returns
exactly the headroom itself (not `headroom × efficiency`), and
`current_soc` becomes exactly `max_soc`. -/
theorem battery_charge_saturates_at_headroom (b : Battery) (x : ℚ)
    (hcap : 0 < b.capacity) (hsoc : b.current_soc ≤ b.max_soc)
    (hx : b.max_soc / 100 * b.capacity - b.current_soc / 100 * b.capacity <
      x * b.efficiency) :
    (b.charge x).1 =
      b.max_soc / 100 * b.capacity - b.current_soc / 100 * b.capacity ∧
    ((b.charge x).2).current_soc = b.max_soc := by
  have hspace : 0 ≤ b.max_soc / 100 * b.capacity - b.current_soc / 100 * b.capacity := by
    nlinarith
  have hmin : min (x * b.efficiency)
      (b.max_soc / 100 * b.capacity - b.current_soc / 100 * b.capacity) =
      b.max_soc / 100 * b.capacity - b.current_soc / 100 * b.capacity :=
    min_eq_right hx.le
  simp only [Battery.charge, Battery.get_current_energy, hmin]
  rcases lt_or_eq_of_le hspace with hpos | hzero
  · rw [if_pos hpos]
    refine ⟨rfl, ?_⟩
    dsimp only
    field_simp
    ring
  · rw [if_neg (by rw [← hzero]; exact lt_irrefl 0)]
    refine ⟨rfl, ?_⟩
    dsimp only
    have hcap' : b.capacity ≠ 0 := ne_of_gt hcap
    nlinarith [hzero]

/-- C6 witness: the spec's example instance. -/
theorem battery_charge_saturates_at_headroom_witness :
    (nearFullBattery.charge 10).1 =
      nearFullBattery.max_soc / 100 * nearFullBattery.capacity -
        nearFullBattery.current_soc / 100 * nearFullBattery.capacity ∧
    ((nearFullBattery.charge 10).2).current_soc = nearFullBattery.max_soc :=
  battery_charge_saturates_at_headroom nearFullBattery 10
    (by norm_num [nearFullBattery, configBattery])
    (by norm_num [nearFullBattery, configBattery])
    (by norm_num [nearFullBattery, configBattery])

end GreenGrid

namespace GreenGrid

/-- C7 counterexample: `charge(-1)` on the config battery returns
`-1 × 0.9 = -0.9`, not `0` — the battery mutators pass the negative value
straight through `min` and return it (the state is untouched). -/
theorem battery_charge_negative_returns_nonzero :
    (-1 : ℚ) ≤ 0 ∧
    (configBattery.charge (-1)).1 = -9/10 ∧
    (configBattery.discharge (-1)).1 = -9/10 ∧
    (configBattery.charge (-1)).1 ≠ 0 := by
  refine ⟨by norm_num, ?_, ?_, ?_⟩ <;>
    norm_num [configBattery, Battery.charge, Battery.discharge,
      Battery.get_current_energy, min_def]

/-- C7 (amended): a non-positive energy argument leaves every component
state unchanged; the grid operations return `0`, while the battery
operations return a non-positive amount — `0` for a zero argument on a
battery inside its SOC band, but the (negative) clamped value for a
negative argument. -/
theorem nonpositive_energy_is_noop (b : Battery) (g : Grid) (x : ℚ)
    (hx : x ≤ 0) (he : 0 ≤ b.efficiency) :
    nonpositiveNoopProp b g x := by
  have hxe : x * b.efficiency ≤ 0 := mul_nonpos_of_nonpos_of_nonneg hx he
  have hcharge : min (x * b.efficiency)
      (b.max_soc / 100 * b.capacity - b.current_soc / 100 * b.capacity) ≤ 0 :=
    le_trans (min_le_left _ _) hxe
  have hdis : min x (b.get_current_energy - b.min_soc / 100 * b.capacity) ≤ 0 :=
    le_trans (min_le_left _ _) hx
  have hdise : min x (b.get_current_energy - b.min_soc / 100 * b.capacity) *
      b.efficiency ≤ 0 := mul_nonpos_of_nonpos_of_nonneg hdis he
  refine ⟨?_, ?_, ?_, ?_, ?_, ?_, ?_, ?_⟩
  · simp only [Battery.charge, Battery.get_current_energy]
    rw [if_neg (not_lt.2 hcharge)]
  · simp only [Battery.charge, Battery.get_current_energy]
    rw [if_neg (not_lt.2 hcharge)]
    exact hcharge
  · simp only [Battery.discharge]
    rw [if_neg (not_lt.2 hdis)]
  · simp only [Battery.discharge]
    rw [if_neg (not_lt.2 hdis)]
    exact hdise
  · rw [Grid.import_energy, if_pos hx]
  · rw [Grid.export_energy, if_pos hx]
  · intro h0 hsoc hc
    subst h0
    have hsp : 0 ≤ b.max_soc / 100 * b.capacity - b.current_soc / 100 * b.capacity := by
      nlinarith
    simp only [Battery.charge, Battery.get_current_energy, zero_mul]
    rw [min_eq_left hsp, if_neg (lt_irrefl 0)]
  · intro h0 hsoc hc
    subst h0
    have hav : 0 ≤ b.get_current_energy - b.min_soc / 100 * b.capacity := by
      simp only [Battery.get_current_energy]
      nlinarith
    simp only [Battery.discharge]
    rw [min_eq_left hav, if_neg (lt_irrefl 0), zero_mul]

/-- C7 witness: the config battery and grid with argument `0`. -/
theorem nonpositive_energy_is_noop_witness :
    nonpositiveNoopProp configBattery configGrid 0 :=
  nonpositive_energy_is_noop configBattery configGrid 0 (by norm_num)
    (by norm_num [configBattery])

end GreenGrid

namespace GreenGrid

/-- The value returned by `Battery.charge`, independent of the state update
branch. -/
lemma Battery.charge_fst (b : Battery) (x : ℚ) :
    (b.charge x).1 = min (x * b.efficiency)
      (b.max_soc / 100 * b.capacity - b.current_soc / 100 * b.capacity) := by
  simp only [Battery.charge, Battery.get_current_energy]
  split <;> rfl

/-- The value returned by `Battery.discharge`, independent of the state
update branch. -/
lemma Battery.discharge_fst (b : Battery) (x : ℚ) :
    (b.discharge x).1 = min x
      (b.current_soc / 100 * b.capacity - b.min_soc / 100 * b.capacity) *
      b.efficiency := by
  simp only [Battery.discharge, Battery.get_current_energy]
  split <;> rfl

/-- C8: with enough headroom for `x × efficiency` and stored energy at
least `x × efficiency` above the `min_soc` floor, `charge(x)` followed by a
discharge of the amount charge returned delivers exactly `x × efficiency²`,
which is strictly below `x` whenever `x > 0` and `0 < efficiency < 1`. -/
theorem battery_round_trip_efficiency_squared (b : Battery) (x : ℚ)
    (hcap : 0 < b.capacity) (hx : 0 ≤ x) (he0 : 0 ≤ b.efficiency)
    (hspace : x * b.efficiency ≤
      b.max_soc / 100 * b.capacity - b.current_soc / 100 * b.capacity)
    (hfloor : b.min_soc / 100 * b.capacity + x * b.efficiency ≤
      b.current_soc / 100 * b.capacity) :
    (((b.charge x).2).discharge (b.charge x).1).1 = x * b.efficiency ^ 2 ∧
    (0 < x → 0 < b.efficiency → b.efficiency < 1 →
      (((b.charge x).2).discharge (b.charge x).1).1 < x) := by
  have hxe : 0 ≤ x * b.efficiency := mul_nonneg hx he0
  have hmin : min (x * b.efficiency)
      (b.max_soc / 100 * b.capacity - b.current_soc / 100 * b.capacity) =
      x * b.efficiency := min_eq_left hspace
  have hfst : (b.charge x).1 = x * b.efficiency := by
    rw [Battery.charge_fst, hmin]
  have hmain : (((b.charge x).2).discharge (b.charge x).1).1 = x * b.efficiency ^ 2 := by
    by_cases hpos : 0 < x * b.efficiency
    · have hb2 : (b.charge x).2 =
          { b with
              current_soc := (b.current_soc / 100 * b.capacity + x * b.efficiency) /
                b.capacity * 100
              total_charged := b.total_charged + x * b.efficiency
              charge_cycles := b.charge_cycles + 1 } := by
        simp only [Battery.charge, Battery.get_current_energy, hmin]
        rw [if_pos hpos]
      rw [hfst, hb2, Battery.discharge_fst]
      dsimp only
      have hA : (b.current_soc / 100 * b.capacity + x * b.efficiency) /
          b.capacity * 100 / 100 * b.capacity =
          b.current_soc / 100 * b.capacity + x * b.efficiency := by
        field_simp
        ring
      rw [hA]
      rw [min_eq_left (by linarith)]
      ring
    · have hzero : x * b.efficiency = 0 := le_antisymm (not_lt.1 hpos) hxe
      have hb2 : (b.charge x).2 = b := by
        simp only [Battery.charge, Battery.get_current_energy, hmin]
        rw [if_neg hpos]
      rw [hfst, hb2, hzero, Battery.discharge_fst]
      rw [min_eq_left (by linarith)]
      have hsq : x * b.efficiency ^ 2 = x * b.efficiency * b.efficiency := by ring
      rw [hsq, hzero]
  refine ⟨hmain, fun hx0 he1 he2 => ?_⟩
  rw [hmain]
  nlinarith

/-- C8 witness: the spec's example — capacity 10 kWh, efficiency 0.9,
SOC 50 %, `charge(1)` then discharge of the returned 0.9 kWh delivers
0.81 kWh < 1 kWh. -/
theorem battery_round_trip_efficiency_squared_witness :
    ((((roundTripBattery.charge 1).2).discharge (roundTripBattery.charge 1).1).1 =
      1 * roundTripBattery.efficiency ^ 2) ∧
    (0 < (1:ℚ) → 0 < roundTripBattery.efficiency → roundTripBattery.efficiency < 1 →
      (((roundTripBattery.charge 1).2).discharge (roundTripBattery.charge 1).1).1 < 1) :=
  battery_round_trip_efficiency_squared roundTripBattery 1
    (by norm_num [roundTripBattery, configBattery]) (by norm_num)
    (by norm_num [roundTripBattery, configBattery])
    (by norm_num [roundTripBattery, configBattery])
    (by norm_num [roundTripBattery, configBattery])

end GreenGrid

namespace GreenGrid

/-- C10 counterexample: on a battery with `current_soc = 110 > max_soc`
(which the claim's "full battery, `current_soc ≥ max_soc`" quantifies over),
`charge(1)` returns the negative available space `-1.35`, not `0` — the
state is still unchanged. -/
theorem battery_overfull_charge_returns_negative :
    overFullBattery.max_soc ≤ overFullBattery.current_soc ∧ (0:ℚ) < 1 ∧
    (overFullBattery.charge 1).1 = -27/20 ∧
    (overFullBattery.charge 1).1 ≠ 0 ∧
    (overFullBattery.charge 1).2 = overFullBattery := by
  refine ⟨by norm_num [overFullBattery, configBattery], by norm_num, ?_, ?_, ?_⟩ <;>
    norm_num [overFullBattery, configBattery, Battery.charge,
      Battery.get_current_energy, min_def]

/-- C10 (amended): for `x > 0`, on a battery at or beyond a SOC bound
(with `0 ≤ efficiency` and `0 ≤ capacity`), `charge`/`discharge` leave the
whole battery state — SOC and all cumulative counters — unchanged and
return a non-positive amount, which equals `0` exactly when `current_soc`
sits exactly on the bound. -/
theorem battery_full_empty_noop (b : Battery) (x : ℚ)
    (hx : 0 < x) (he : 0 ≤ b.efficiency) (hcap : 0 ≤ b.capacity) :
    fullEmptyNoopProp b x := by
  refine ⟨?_, ?_, ?_, ?_⟩
  · intro hfull
    have hsp : b.max_soc / 100 * b.capacity - b.current_soc / 100 * b.capacity ≤ 0 := by
      nlinarith
    have hact : min (x * b.efficiency)
        (b.max_soc / 100 * b.capacity - b.current_soc / 100 * b.capacity) ≤ 0 :=
      le_trans (min_le_right _ _) hsp
    constructor
    · simp only [Battery.charge, Battery.get_current_energy]
      rw [if_neg (not_lt.2 hact)]
    · simp only [Battery.charge, Battery.get_current_energy]
      rw [if_neg (not_lt.2 hact)]
      exact hact
  · intro heq
    have hsp : b.max_soc / 100 * b.capacity - b.current_soc / 100 * b.capacity = 0 := by
      rw [heq]; ring
    simp only [Battery.charge, Battery.get_current_energy, hsp]
    rw [min_eq_right (mul_nonneg hx.le he), if_neg (lt_irrefl 0)]
  · intro hempty
    have hav : b.current_soc / 100 * b.capacity - b.min_soc / 100 * b.capacity ≤ 0 := by
      nlinarith
    have hact : min x
        (b.current_soc / 100 * b.capacity - b.min_soc / 100 * b.capacity) ≤ 0 :=
      le_trans (min_le_right _ _) hav
    constructor
    · simp only [Battery.discharge, Battery.get_current_energy]
      rw [if_neg (not_lt.2 hact)]
    · simp only [Battery.discharge, Battery.get_current_energy]
      rw [if_neg (not_lt.2 hact)]
      exact mul_nonpos_of_nonpos_of_nonneg hact he
  · intro heq
    have hav : b.current_soc / 100 * b.capacity - b.min_soc / 100 * b.capacity = 0 := by
      rw [heq]; ring
    simp only [Battery.discharge, Battery.get_current_energy, hav]
    rw [min_eq_right hx.le, if_neg (lt_irrefl 0), zero_mul]

/-- C10 witness: a battery exactly at `max_soc = 100` and one exactly at
`min_soc = 5` with `charge(1)` / `discharge(1)`. -/
theorem battery_full_empty_noop_witness :
    fullEmptyNoopProp fullBattery 1 ∧ fullEmptyNoopProp emptyBattery 1 :=
  ⟨battery_full_empty_noop fullBattery 1 (by norm_num)
      (by norm_num [fullBattery, configBattery])
      (by norm_num [fullBattery, configBattery]),
    battery_full_empty_noop emptyBattery 1 (by norm_num)
      (by norm_num [emptyBattery, configBattery])
      (by norm_num [emptyBattery, configBattery])⟩

end GreenGrid
